import Mathlib

/-!
Verification development for the comon COM-monitor debugger extension.

The command-dispatch layer (`split_args`, the `cometa`/`cobp`/`cobl`/`cobd`/
`coreg`/`comon` handlers and the `parse_filter` lambda) is embedded directly
from `src/comon/ext.cpp`.  The engine it drives (the `dbgsession`, the
monitor with its vtable registry and breakpoint manager, and the GUID codec)
is not part of the given sources, so those definitions are modelled from the
design document, as their doc comments state.

C++ numeric parsing (`std::stoul` / `std::stoull`) is modelled explicitly,
including the exceptions it can raise; a handler that lets such an exception
escape is modelled as returning `Except.error`, while a handler that returns
an HRESULT to the debugger returns `Except.ok`.
-/

set_option maxRecDepth 100000

namespace Comon

/-- GUIDs (CLSID / IID) are 128-bit values; modelled as `Nat`. -/
abbrev GUID := Nat

/-- The C++ exceptions relevant to the numeric-parsing paths of the
command handlers. -/
inductive CppExc where
  | invalid_argument
  | out_of_range
deriving DecidableEq

/-- The typed error kinds of the engine, from the error-handling design. -/
inductive ComonError where
  | InvalidGuidFormat
  | AlreadyAttached
  | NotAttached
  | UnknownVtable
  | MethodNotFound
  | BreakpointNotFound
  | UnderlyingBreakpointFailure
deriving DecidableEq

/-- HRESULT values observable from the command handlers: `s_ok` is the only
success; `e_invalidarg` and `e_fail` are the handler-level failure codes seen
in `ext.cpp`; `guid_parse_error` is the failing HRESULT propagated by
`RETURN_IF_FAILED(try_parse_guid ...)`; `engine e` is a failing HRESULT
produced by an engine operation, tagged with its typed error kind. -/
inductive HRes where
  | s_ok
  | e_invalidarg
  | e_fail
  | guid_parse_error
  | engine (e : ComonError)
deriving DecidableEq

/-- An HRESULT is a failure exactly when it is not `S_OK`. -/
def HRes.failed : HRes → Bool
  | .s_ok => false
  | _ => true

/-- The C-locale isspace predicate: space, \t, \n, \v, \f, \r. -/
def c_isspace (c : Char) : Bool :=
  c.toNat == 32 || c.toNat == 9 || c.toNat == 10 ||
  c.toNat == 11 || c.toNat == 12 || c.toNat == 13

/-- Hexadecimal digit test for the GUID codec. -/
def hexDigit (c : Char) : Bool :=
  c.isDigit || (97 ≤ c.toNat && c.toNat ≤ 102) || (65 ≤ c.toNat && c.toNat ≤ 70)

/-- Value of a hexadecimal digit. -/
def hexVal (c : Char) : Nat :=
  if c.isDigit then c.toNat - 48
  else if 97 ≤ c.toNat then c.toNat - 87
  else c.toNat - 55

/-- Split a character list at every dash. -/
def splitDash : List Char → List (List Char)
  | [] => [[]]
  | c :: rest =>
    let r := splitDash rest
    if c = Char.ofNat 45 then [] :: r
    else
      match r with
      | g :: gs => (c :: g) :: gs
      | [] => [[c]]

/-- Modelled from the spec: the GUID Codec (`try_parse_guid`, not under
`src/`) parses a textual GUID in the canonical dashed 8-4-4-4-12
hexadecimal form into its 128-bit value, and rejects anything else. -/
def try_parse_guid (s : String) : Option GUID :=
  match splitDash s.toList with
  | [a, b, c, d, e] =>
    if (a.length == 8) && (b.length == 4) && (c.length == 4) &&
       (d.length == 4) && (e.length == 12) &&
       (a ++ b ++ c ++ d ++ e).all hexDigit then
      some ((a ++ b ++ c ++ d ++ e).foldl (fun acc ch => acc * 16 + hexVal ch) 0)
    else none
  | _ => none

/-- The loop state of `split_args` in `ext.cpp`: the active citation
character (`'\0'`, i.e. code point 0, when none), the tokens produced so
far, and the token being accumulated. -/
structure split_state where
  citation_char : Char
  vargs : List String
  token : List Char

/-- One character step of `split_args` (`ext.cpp`, lines 46-67). -/
def split_args_step (st : split_state) (c : Char) : split_state :=
  if st.citation_char ≠ Char.ofNat 0 then
    if c = st.citation_char then
      { citation_char := Char.ofNat 0,
        vargs := if st.token ≠ [] then st.vargs ++ [String.mk st.token] else st.vargs,
        token := [] }
    else { st with token := st.token ++ [c] }
  else if c = Char.ofNat 34 ∨ c = Char.ofNat 39 then
    { st with citation_char := c }
  else if c_isspace c ∨ c = Char.ofNat 44 then
    { citation_char := st.citation_char,
      vargs := if st.token ≠ [] then st.vargs ++ [String.mk st.token] else st.vargs,
      token := [] }
  else { st with token := st.token ++ [c] }

/-- Tokenizer `split_args` from `ext.cpp` (lines 41-74): tokenizes an argument string
on whitespace and commas, honouring single and double quotes. -/
def split_args (args : String) : List String :=
  let st := args.toList.foldl split_args_step ⟨Char.ofNat 0, [], []⟩
  if st.token ≠ [] then st.vargs ++ [String.mk st.token] else st.vargs

/-- Semantics of the `std::stoul` family (base 10) as on MSVC, where the limit is
`2^32 - 1` for `unsigned long` and `2^64 - 1` for `unsigned long long`:
leading C-locale whitespace is skipped, one optional sign is accepted, then
the longest digit prefix is converted; no digits raises
`std::invalid_argument`; a converted magnitude above the limit raises
`std::out_of_range`; a minus sign wraps the value modulo `limit + 1`. -/
def stoul_core (limit : Nat) (s : String) : Except CppExc Nat :=
  let cs := s.toList.dropWhile c_isspace
  let signed : Bool × List Char :=
    match cs with
    | c :: rest =>
      if c = Char.ofNat 45 then (true, rest)
      else if c = Char.ofNat 43 then (false, rest)
      else (false, cs)
    | [] => (false, [])
  let digits := signed.2.takeWhile Char.isDigit
  if digits.isEmpty then .error .invalid_argument
  else
    let v := digits.foldl (fun a c => a * 10 + (c.toNat - 48)) 0
    if v > limit then .error .out_of_range
    else .ok (if signed.1 then (limit + 1 - v % (limit + 1)) % (limit + 1) else v)

/-- MSVC `std::stoul`: 32-bit `unsigned long`. -/
def stoul (s : String) : Except CppExc Nat := stoul_core (2 ^ 32 - 1) s

/-- MSVC `std::stoull`: 64-bit `unsigned long long`. -/
def stoull (s : String) : Except CppExc Nat := stoul_core (2 ^ 64 - 1) s

/-- The `cofilter` variant from `comon.h` as described by the design:
`no_filter`, `including_filter` over a set of CLSIDs, or
`excluding_filter` over a set of CLSIDs. -/
inductive cofilter where
  | no_filter
  | including_filter (clsids : Finset GUID)
  | excluding_filter (clsids : Finset GUID)
deriving DecidableEq

/-- The loop body of the `parse_filter` lambda in `comon`
(`ext.cpp`, lines 282-300), applied to the token list already reversed:
the C++ iterates `crbegin()` to `crend()`.  A `-i` or `-e` token returns at
once with the CLSIDs collected so far; a parseable GUID is inserted into
the working set; any other token is skipped.  After the loop, a non-empty
set yields an including filter, otherwise no filter. -/
def parse_filter_loop : List String → Finset GUID → cofilter
  | [], clsids =>
    if 0 < clsids.card then .including_filter clsids else .no_filter
  | tok :: rest, clsids =>
    if tok = "-i" then .including_filter clsids
    else if tok = "-e" then .excluding_filter clsids
    else
      match try_parse_guid tok with
      | some g => parse_filter_loop rest (insert g clsids)
      | none => parse_filter_loop rest clsids

/-- The `parse_filter` lambda of the `comon` handler: scans the tokens from
the end. -/
def parse_filter (args : List String) : cofilter :=
  parse_filter_loop args.reverse ∅

/-- Modelled from the spec: the Filter contract `decide(clsid) -> bool` of
the engine (not under `src/`): `no_filter` admits every class,
`including_filter S` admits exactly `S`, `excluding_filter S` admits the
complement of `S`. -/
def cofilter.decide : cofilter → GUID → Bool
  | .no_filter, _ => true
  | .including_filter s, c => Decidable.decide (c ∈ s)
  | .excluding_filter s, c => Decidable.decide (c ∉ s)

/-- An observed virtual table, from the data model: the owning module's
name, the class and interface it belongs to, the target bitness and the
table's address. -/
structure VtableRecord where
  module_name : String
  clsid : GUID
  iid : GUID
  is_64bit : Bool
  address : Nat
deriving DecidableEq

/-- A logical breakpoint record, from the data model: unique id, a
human-readable description and the absolute address broken at. -/
structure Breakpoint where
  id : Nat
  description : String
  address : Nat
deriving DecidableEq

/-- The two overloads of `create_cobreakpoint` called from `cobp`: a vtable
slot index (`DWORD`) or a textual method name. -/
inductive method_selector where
  | by_index (n : Nat)
  | by_name (nm : String)
deriving DecidableEq

/-- Modelled from the spec: the slice of the Type Metadata Resolver the
engine consumes (not under `src/`), as a read-only oracle; only
`get_type_methods` (the interface's ordered method-name list for an IID)
is needed by the breakpoint manager. -/
structure cometa_store where
  get_type_methods : GUID → Option (List String)

/-- Modelled from the spec: the debugger collaborator (not under `src/`)
the engine consumes: whether placing a real execution breakpoint at an
address succeeds, and the module name owning an address (used via module
enumeration when a vtable is recorded). -/
structure debugger_oracle where
  place_breakpoint : Nat → Bool
  module_name_at : Nat → String

/-- Modelled from the spec: the Monitor (not under `src/`) owns one Vtable
Registry (`vtables`), one Breakpoint Manager (`breakpoints` plus the
monotonically assigned `next_bp_id`), one `filter`, and a paused/running
flag. -/
structure monitor_state where
  filter : cofilter
  vtables : List VtableRecord
  breakpoints : List Breakpoint
  next_bp_id : Nat
  paused : Bool
deriving DecidableEq

/-- Modelled from the spec: a Monitor constructed on attach starts Running
with empty registry and no breakpoints. -/
def monitor_state.init (f : cofilter) : monitor_state :=
  { filter := f, vtables := [], breakpoints := [], next_bp_id := 1, paused := false }

/-- Modelled from the spec: `pause()` moves Running to Paused without
touching registry or breakpoints. -/
def monitor_state.pause (m : monitor_state) : monitor_state :=
  { m with paused := true }

/-- Modelled from the spec: `resume()` moves Paused to Running. -/
def monitor_state.resume (m : monitor_state) : monitor_state :=
  { m with paused := false }

/-- Modelled from the spec: `is_paused()`. -/
def monitor_state.is_paused (m : monitor_state) : Bool := m.paused

/-- Modelled from the spec: `register_vtable` delegates to the Registry
only when Running and is a success-reporting no-op when Paused; the
Registry consults the Filter (a rejected class is discarded, still
success), drops a duplicate `(clsid, iid, address)` registration
idempotently, and otherwise appends the new record with the module name
resolved through the debugger collaborator. -/
def monitor_state.register_vtable (m : monitor_state) (oracle : debugger_oracle)
    (clsid iid : GUID) (address : Nat) (is_64bit : Bool) : monitor_state × HRes :=
  if m.paused then (m, HRes.s_ok)
  else if m.filter.decide clsid = false then (m, HRes.s_ok)
  else if m.vtables.any (fun r => r.clsid == clsid && r.iid == iid && r.address == address) then
    (m, HRes.s_ok)
  else
    ({ m with vtables := m.vtables ++
        [{ module_name := oracle.module_name_at address, clsid := clsid, iid := iid,
           is_64bit := is_64bit, address := address }] }, HRes.s_ok)

/-- Modelled from the spec: resolving a method selector to a vtable slot
index — a numeric selector is the index itself; a name is located in the
interface's ordered method list obtained from the metadata resolver, with
no resolution when the IID has no metadata or the name is absent. -/
def resolve_selector (meta : cometa_store) (iid : GUID) : method_selector → Option Nat
  | .by_index n => some n
  | .by_name nm =>
    match meta.get_type_methods iid with
    | none => none
    | some methods => methods.findIdx? (fun x => x == nm)

/-- The address of a method slot: vtable base + index × pointer width,
pointer width decided by the record's bitness. -/
def vtable_method_address (r : VtableRecord) (idx : Nat) : Nat :=
  r.address + idx * (if r.is_64bit then 8 else 4)

/-- Modelled from the spec: `create_cobreakpoint` of the Breakpoint
Manager (not under `src/`) — it must find a VtableRecord matching
`(clsid, iid)` in the Registry (else `UnknownVtable`), resolves the
selector to a slot index (else `MethodNotFound`), computes the absolute
address, asks the debugger collaborator for a real breakpoint there (a
refusal is `UnderlyingBreakpointFailure`), and only on success allocates a
fresh id and stores the record; every failure leaves the monitor
unchanged. -/
def monitor_state.create_cobreakpoint (m : monitor_state) (meta : cometa_store)
    (oracle : debugger_oracle) (clsid iid : GUID) (sel : method_selector) :
    monitor_state × HRes :=
  match m.vtables.find? (fun r => r.clsid == clsid && r.iid == iid) with
  | none => (m, HRes.engine ComonError.UnknownVtable)
  | some r =>
    match resolve_selector meta iid sel with
    | none => (m, HRes.engine ComonError.MethodNotFound)
    | some idx =>
      let addr := vtable_method_address r idx
      if oracle.place_breakpoint addr then
        ({ m with
            breakpoints := m.breakpoints ++
              [{ id := m.next_bp_id,
                 description := toString clsid ++ ":" ++ toString iid ++ ":" ++ toString idx,
                 address := addr }],
            next_bp_id := m.next_bp_id + 1 }, HRes.s_ok)
      else (m, HRes.engine ComonError.UnderlyingBreakpointFailure)

/-- Modelled from the spec: `remove_cobreakpoint` removes the logical
record by id (mirroring the real breakpoint's deletion) and reports
`BreakpointNotFound` on an unknown id, leaving the list unchanged. -/
def monitor_state.remove_cobreakpoint (m : monitor_state) (bpid : Nat) :
    monitor_state × HRes :=
  if m.breakpoints.any (fun b => b.id == bpid) then
    ({ m with breakpoints := m.breakpoints.filter (fun b => b.id != bpid) }, HRes.s_ok)
  else (m, HRes.engine ComonError.BreakpointNotFound)

/-- Modelled from the spec: `list_breakpoints` returns the stored
breakpoints in stable insertion order. -/
def monitor_state.list_breakpoints (m : monitor_state) : List Breakpoint :=
  m.breakpoints

/-- Modelled from the spec: the process-wide Session (`dbgsession`, not
under `src/`) holds zero-or-one active Monitor. -/
structure dbgsession where
  monitor : Option monitor_state
deriving DecidableEq

/-- Modelled from the spec: `find_active_monitor` returns the active
Monitor, if any. -/
def dbgsession.find_active_monitor (s : dbgsession) : Option monitor_state :=
  s.monitor

/-- Modelled from the spec: `attach(filter)` fails observably with
`AlreadyAttached` when a Monitor is active, and otherwise constructs a new
Monitor with the given Filter and sets it active. -/
def dbgsession.attach (s : dbgsession) (f : cofilter) : dbgsession × HRes :=
  match s.monitor with
  | some _ => (s, HRes.engine ComonError.AlreadyAttached)
  | none => ({ monitor := some (monitor_state.init f) }, HRes.s_ok)

/-- Modelled from the spec: `detach()` tears down the Monitor and is an
idempotent no-op when nothing is attached. -/
def dbgsession.detach (s : dbgsession) : dbgsession :=
  { s with monitor := none }

/-- Extension unload hook `DebugExtensionUninitialize` (`ext.cpp`, line 85): unconditionally
detaches the session at extension unload. -/
def DebugExtensionUninitialize (s : dbgsession) : dbgsession :=
  s.detach

/-- The outcome of a command handler: `Except.ok hr` when the handler
returns the HRESULT `hr` to the debugger, `Except.error e` when the C++
exception `e` escapes the handler. -/
abbrev HandlerOutcome := Except CppExc HRes

deriving instance DecidableEq for Except

/-- The `cobp` handler (`ext.cpp`, lines 176-204): needs at least three
tokens, parses the first two as CLSID and IID (returning their failing
HRESULT on malformed input), requires an active monitor (else `E_FAIL`),
then tries `std::stoul` on the third token — success calls the
index overload of `create_cobreakpoint`, a caught `std::invalid_argument`
calls the name overload, and an uncaught `std::out_of_range` escapes. -/
def cobp (meta : cometa_store) (oracle : debugger_oracle) (s : dbgsession)
    (args : String) : dbgsession × HandlerOutcome :=
  let vargs := split_args args
  if vargs.length < 3 then (s, .ok HRes.e_invalidarg)
  else
    match try_parse_guid (vargs.getD 0 "") with
    | none => (s, .ok HRes.guid_parse_error)
    | some clsid =>
      match try_parse_guid (vargs.getD 1 "") with
      | none => (s, .ok HRes.guid_parse_error)
      | some iid =>
        match s.find_active_monitor with
        | some m =>
          match stoul (vargs.getD 2 "") with
          | .ok method_num =>
            let r := m.create_cobreakpoint meta oracle clsid iid (.by_index method_num)
            ({ monitor := some r.1 }, .ok r.2)
          | .error .invalid_argument =>
            let r := m.create_cobreakpoint meta oracle clsid iid (.by_name (vargs.getD 2 ""))
            ({ monitor := some r.1 }, .ok r.2)
          | .error .out_of_range => (s, .error .out_of_range)
        | none => (s, .ok HRes.e_fail)

/-- The `cobl` handler (`ext.cpp`, lines 206-219): with an active monitor
it prints the breakpoint list and returns `S_OK`; otherwise `E_FAIL`. -/
def cobl (s : dbgsession) (_args : String) : dbgsession × HandlerOutcome :=
  match s.find_active_monitor with
  | some _ => (s, .ok HRes.s_ok)
  | none => (s, .ok HRes.e_fail)

/-- The `cobd` handler (`ext.cpp`, lines 221-231): with an active monitor
it calls `remove_cobreakpoint(std::stoul(args))` — the `std::stoul` sits
outside any try/catch, so both of its exceptions escape; with no monitor
it returns `E_FAIL`. -/
def cobd (s : dbgsession) (args : String) : dbgsession × HandlerOutcome :=
  match s.find_active_monitor with
  | some m =>
    match stoul args with
    | .ok bpid =>
      let r := m.remove_cobreakpoint bpid
      ({ monitor := some r.1 }, .ok r.2)
    | .error e => (s, .error e)
  | none => (s, .ok HRes.e_fail)

/-- The `coreg` handler (`ext.cpp`, lines 233-256): needs at least three
tokens, parses the first two as CLSID and IID, requires an active monitor
(else `E_FAIL`), converts the third token with `std::stoull` (no
try/catch: its exceptions escape) and registers the vtable with
`is_64bit` hard-coded to `false`. -/
def coreg (oracle : debugger_oracle) (s : dbgsession) (args : String) :
    dbgsession × HandlerOutcome :=
  let vargs := split_args args
  if vargs.length < 3 then (s, .ok HRes.e_invalidarg)
  else
    match try_parse_guid (vargs.getD 0 "") with
    | none => (s, .ok HRes.guid_parse_error)
    | some clsid =>
      match try_parse_guid (vargs.getD 1 "") with
      | none => (s, .ok HRes.guid_parse_error)
      | some iid =>
        match s.find_active_monitor with
        | some m =>
          match stoull (vargs.getD 2 "") with
          | .ok vtable_addr =>
            let r := m.register_vtable oracle clsid iid vtable_addr false
            ({ monitor := some r.1 }, .ok r.2)
          | .error e => (s, .error e)
        | none => (s, .ok HRes.e_fail)

/-- The `comon` handler (`ext.cpp`, lines 258-349): with an active monitor,
`attach` is rejected with `E_FAIL`, `pause`/`resume`/`detach`/`status`
perform their action and return `S_OK`, anything else is `E_INVALIDARG`;
with no monitor, `attach` builds the filter from the remaining tokens via
`parse_filter` and attaches, and any other subcommand is `E_FAIL`. -/
def comon (s : dbgsession) (args : String) : dbgsession × HandlerOutcome :=
  let vargs := split_args args
  if vargs.length < 1 then (s, .ok HRes.e_invalidarg)
  else
    match s.find_active_monitor with
    | some m =>
      if vargs.getD 0 "" = "attach" then (s, .ok HRes.e_fail)
      else if vargs.getD 0 "" = "pause" then
        ({ monitor := some m.pause }, .ok HRes.s_ok)
      else if vargs.getD 0 "" = "resume" then
        ({ monitor := some m.resume }, .ok HRes.s_ok)
      else if vargs.getD 0 "" = "detach" then (s.detach, .ok HRes.s_ok)
      else if vargs.getD 0 "" = "status" then (s, .ok HRes.s_ok)
      else (s, .ok HRes.e_invalidarg)
    | none =>
      if vargs.getD 0 "" = "attach" then
        ((s.attach (parse_filter (vargs.drop 1))).1, .ok HRes.s_ok)
      else (s, .ok HRes.e_fail)

/-- The set of CLSID values collected from a token list by the
`parse_filter` scan (used to state the filter-construction properties). -/
def collected_clsids (toks : List String) : Finset GUID :=
  toks.foldr
    (fun t acc =>
      match try_parse_guid t with
      | some g => insert g acc
      | none => acc) ∅

/-- A canonical GUID string with value 1, used as a concrete test input. -/
def guid1s : String := "00000000-0000-0000-0000-000000000001"

/-- A canonical GUID string with value 2, used as a concrete test input. -/
def guid2s : String := "00000000-0000-0000-0000-000000000002"

/-- A concrete metadata oracle: IID 2 is an interface with the three
IUnknown methods; nothing else is known. -/
def meta0 : cometa_store :=
  ⟨fun i => if i = 2 then some ["QueryInterface", "AddRef", "Release"] else none⟩

/-- A concrete debugger oracle that accepts every breakpoint placement. -/
def oracle0 : debugger_oracle :=
  ⟨fun _ => true, fun _ => "combase.dll"⟩

/-- A concrete debugger oracle that refuses every breakpoint placement. -/
def oracleFail : debugger_oracle :=
  ⟨fun _ => false, fun _ => "combase.dll"⟩

/-- The vtable record observed in the concrete monitor `mV`. -/
def rV : VtableRecord :=
  { module_name := "combase.dll", clsid := 1, iid := 2,
    is_64bit := false, address := 4096 }

/-- A concrete monitor with one recorded 32-bit vtable for
(CLSID 1, IID 2) at address 4096. -/
def mV : monitor_state :=
  { filter := cofilter.no_filter, vtables := [rV],
    breakpoints := [], next_bp_id := 1, paused := false }

/-- A session whose monitor is `mV`. -/
def sessV : dbgsession := ⟨some mV⟩

/-- A session with a freshly attached, empty monitor. -/
def sessA : dbgsession := ⟨some (monitor_state.init cofilter.no_filter)⟩

/-- A session with no monitor attached. -/
def sessNone : dbgsession := ⟨none⟩

/-- Concrete `coreg` arguments: two valid GUIDs and a non-numeric
address token. -/
def argsRegBad : String := guid1s ++ " " ++ guid2s ++ " xyz"

/-- Concrete `cobp` arguments: two valid GUIDs and a numeric selector
that overflows a 32-bit `unsigned long`. -/
def argsBpOOR : String := guid1s ++ " " ++ guid2s ++ " 4294967296"

/-- Concrete `cobp` arguments: two valid GUIDs and the numeric selector 2. -/
def argsBp2 : String := guid1s ++ " " ++ guid2s ++ " 2"

/-- Concrete `cobp` arguments: two valid GUIDs and the method name
"Release". -/
def argsBpRel : String := guid1s ++ " " ++ guid2s ++ " Release"

/-- Concrete `coreg` arguments: two valid GUIDs and the numeric address
4096. -/
def argsReg4096 : String := guid1s ++ " " ++ guid2s ++ " 4096"

/-- A token that is neither a flag nor a parseable GUID is skipped by the
scan wherever it sits. -/
theorem parse_filter_loop_skips_junk (t : String) (ht1 : t ≠ "-i") (ht2 : t ≠ "-e")
    (ht3 : try_parse_guid t = none) :
    ∀ (xs ys : List String) (s : Finset GUID),
      parse_filter_loop (xs ++ t :: ys) s = parse_filter_loop (xs ++ ys) s := by
  intro xs
  induction xs with
  | nil =>
    intro ys s
    simp [parse_filter_loop, ht1, ht2, ht3]
  | cons x xs ih =>
    intro ys s
    by_cases hx1 : x = "-i"
    · simp [parse_filter_loop, hx1]
    · by_cases hx2 : x = "-e"
      · simp [parse_filter_loop, hx1, hx2]
      · cases hg : try_parse_guid x with
        | some g => simp [parse_filter_loop, hx1, hx2, hg, ih]
        | none => simp [parse_filter_loop, hx1, hx2, hg, ih]

/-- When the scanned list holds no flag token, the loop ends with the
default: an including filter over everything collected if non-empty,
otherwise no filter. -/
theorem parse_filter_loop_no_flag :
    ∀ (l : List String) (s : Finset GUID), "-i" ∉ l → "-e" ∉ l →
      parse_filter_loop l s =
        (if 0 < (l.foldl
            (fun acc t =>
              match try_parse_guid t with
              | some g => insert g acc
              | none => acc) s).card
         then cofilter.including_filter (l.foldl
            (fun acc t =>
              match try_parse_guid t with
              | some g => insert g acc
              | none => acc) s)
         else cofilter.no_filter) := by
  intro l
  induction l with
  | nil => intro s _ _; simp [parse_filter_loop]
  | cons x xs ih =>
    intro s hi he
    have hx1 : x ≠ "-i" := fun h => hi (h ▸ List.mem_cons_self x xs)
    have hx2 : x ≠ "-e" := fun h => he (h ▸ List.mem_cons_self x xs)
    have hi' : "-i" ∉ xs := fun h => hi (List.mem_cons_of_mem x h)
    have he' : "-e" ∉ xs := fun h => he (List.mem_cons_of_mem x h)
    cases hg : try_parse_guid x with
    | some g => simp [parse_filter_loop, hx1, hx2, hg, ih _ hi' he', List.foldl_cons]
    | none => simp [parse_filter_loop, hx1, hx2, hg, ih _ hi' he', List.foldl_cons]

/-- Scanning the reversed tokens collects exactly `collected_clsids`. -/
theorem foldl_reverse_collected (toks : List String) :
    toks.reverse.foldl
      (fun acc t =>
        match try_parse_guid t with
        | some g => insert g acc
        | none => acc) (∅ : Finset GUID) = collected_clsids toks := by
  rw [List.foldl_reverse]
  rfl

/-- C1 counterexample: with the parseable GUID string `guid1s`, the token
lists `[guid1s, "-i"]` and `["-i", guid1s]` do not yield the same filter —
the right-to-left scan hits a trailing `-i` before collecting any GUID, so
the flag-last ordering produces an empty including set, refuting the
claimed order-insensitivity. -/
theorem C1_counterexample :
    try_parse_guid guid1s = some 1 ∧
    parse_filter [guid1s, "-i"] = cofilter.including_filter ∅ ∧
    parse_filter [guid1s, "-i"] ≠ parse_filter ["-i", guid1s] := by
  refine ⟨by decide, by decide, by decide⟩

/-- C1 (amended): the scan is right-to-left and stops at the first flag it
meets, so only GUID tokens to the right of the flag are collected: with one
parseable GUID `g` and one flag, flag-first yields the flag's variant over
`{g}` while flag-last yields the flag's variant over the empty set; the
flag's type alone still determines the variant. -/
theorem C1_amended (g : String) (gv : GUID) (hg : try_parse_guid g = some gv)
    (h1 : g ≠ "-i") (h2 : g ≠ "-e") :
    parse_filter ["-i", g] = cofilter.including_filter {gv} ∧
    parse_filter ["-e", g] = cofilter.excluding_filter {gv} ∧
    parse_filter [g, "-i"] = cofilter.including_filter ∅ ∧
    parse_filter [g, "-e"] = cofilter.excluding_filter ∅ := by
  refine ⟨?_, ?_, ?_, ?_⟩ <;>
    simp [parse_filter, parse_filter_loop, hg, h1, h2]

/-- C1 witness: the amended behavior at the concrete GUID string
`guid1s`. -/
theorem C1_amended_witness :
    parse_filter ["-i", guid1s] = cofilter.including_filter {1} ∧
    parse_filter ["-e", guid1s] = cofilter.excluding_filter {1} ∧
    parse_filter [guid1s, "-i"] = cofilter.including_filter ∅ ∧
    parse_filter [guid1s, "-e"] = cofilter.excluding_filter ∅ :=
  C1_amended guid1s 1 (by decide) (by decide) (by decide)

/-- C8: the filter scan silently skips any token that is neither a flag
nor a parseable GUID, leaving the result unchanged; when no flag token is
present, a non-empty collected GUID set yields an including filter over
exactly that set, and if nothing parseable was collected the result is no
filter. -/
theorem C8_filter_construction (l1 l2 : List String) (t : String)
    (toks : List String)
    (ht1 : t ≠ "-i") (ht2 : t ≠ "-e") (ht3 : try_parse_guid t = none)
    (hf1 : "-i" ∉ toks) (hf2 : "-e" ∉ toks) :
    parse_filter (l1 ++ t :: l2) = parse_filter (l1 ++ l2) ∧
    ((collected_clsids toks).Nonempty →
      parse_filter toks = cofilter.including_filter (collected_clsids toks)) ∧
    (collected_clsids toks = ∅ → parse_filter toks = cofilter.no_filter) := by
  have hbase : parse_filter toks =
      (if 0 < (collected_clsids toks).card
       then cofilter.including_filter (collected_clsids toks)
       else cofilter.no_filter) := by
    rw [parse_filter,
      parse_filter_loop_no_flag toks.reverse ∅
        (by simpa using hf1) (by simpa using hf2),
      foldl_reverse_collected]
  refine ⟨?_, ?_, ?_⟩
  · rw [parse_filter, parse_filter, List.reverse_append, List.reverse_cons,
      List.append_assoc, List.reverse_append]
    exact parse_filter_loop_skips_junk t ht1 ht2 ht3 l2.reverse l1.reverse ∅
  · intro hne
    rw [hbase, if_pos (Finset.card_pos.mpr hne)]
  · intro hempty
    rw [hbase, hempty]
    simp

/-- C8 witness: concrete instances — a junk token "zz" inserted in the
middle changes nothing, one collected GUID with no flag defaults to an
including filter, and a lone junk token yields no filter. -/
theorem C8_filter_construction_witness :
    parse_filter (["zz"] ++ "zz" :: [guid1s]) = parse_filter (["zz"] ++ [guid1s]) ∧
    parse_filter [guid1s] = cofilter.including_filter (collected_clsids [guid1s]) ∧
    parse_filter ["zz"] = cofilter.no_filter := by
  have h1 := C8_filter_construction ["zz"] [guid1s] "zz" [guid1s]
    (by decide) (by decide) (by decide) (by decide) (by decide)
  have h2 := C8_filter_construction [] [] "zz" ["zz"]
    (by decide) (by decide) (by decide) (by decide) (by decide)
  exact ⟨h1.1, h1.2.1 (by decide), h2.2.2 (by decide)⟩

/-- C2: contrary to the claim, an exception can escape a command handler —
with a monitor attached, `cobd` on the non-numeric argument "abc" and
`coreg` on a non-numeric address token both raise
`std::invalid_argument` out of the handler instead of returning an
HRESULT, because their numeric conversions sit outside any try/catch. -/
theorem C2_exception_escapes :
    (cobd sessA "abc").2 = Except.error CppExc.invalid_argument ∧
    (coreg oracle0 sessA argsRegBad).2 = Except.error CppExc.invalid_argument := by
  refine ⟨by decide, by decide⟩

/-- C4: while paused, `register_vtable` is a success-reporting no-op that
changes nothing (registry and breakpoints survive the pause untouched);
after `resume`, redelivering the same observation appends the record; and
a Monitor built on attach starts Running. -/
theorem C4_pause_semantics (oracle : debugger_oracle) (m : monitor_state)
    (clsid iid : GUID) (addr : Nat) (b : Bool) (f : cofilter)
    (hf : m.filter.decide clsid = true)
    (hd : ∀ r ∈ m.vtables, ¬(r.clsid = clsid ∧ r.iid = iid ∧ r.address = addr)) :
    m.pause.register_vtable oracle clsid iid addr b = (m.pause, HRes.s_ok) ∧
    m.pause.vtables = m.vtables ∧
    m.pause.breakpoints = m.breakpoints ∧
    m.pause.resume.register_vtable oracle clsid iid addr b =
      ({ m with paused := false,
                vtables := m.vtables ++
                  [⟨oracle.module_name_at addr, clsid, iid, b, addr⟩] },
        HRes.s_ok) ∧
    (monitor_state.init f).is_paused = false ∧
    (dbgsession.attach ⟨none⟩ f).1.monitor = some (monitor_state.init f) := by
  have hany : (m.vtables.any
      (fun r => r.clsid == clsid && r.iid == iid && r.address == addr)) = false := by
    rw [List.any_eq_false]
    intro r hr
    have := hd r hr
    simp only [Bool.and_eq_true, beq_iff_eq]
    tauto
  refine ⟨?_, rfl, rfl, ?_, rfl, rfl⟩
  · simp [monitor_state.register_vtable, monitor_state.pause]
  · simp [monitor_state.register_vtable, monitor_state.pause,
      monitor_state.resume, hf, hany]

/-- C4 witness: the concrete monitor `mV` with an unfiltered observation
of (CLSID 5, IID 6) at address 8192. -/
theorem C4_pause_semantics_witness :
    mV.pause.register_vtable oracle0 5 6 8192 true = (mV.pause, HRes.s_ok) ∧
    mV.pause.vtables = mV.vtables ∧
    mV.pause.breakpoints = mV.breakpoints ∧
    mV.pause.resume.register_vtable oracle0 5 6 8192 true =
      ({ mV with paused := false,
                 vtables := mV.vtables ++
                   [⟨oracle0.module_name_at 8192, 5, 6, true, 8192⟩] },
        HRes.s_ok) ∧
    (monitor_state.init cofilter.no_filter).is_paused = false ∧
    (dbgsession.attach ⟨none⟩ cofilter.no_filter).1.monitor =
      some (monitor_state.init cofilter.no_filter) :=
  C4_pause_semantics oracle0 mV 5 6 8192 true cofilter.no_filter
    (by decide) (by decide)

/-- C5: attaching while a Monitor is active fails observably —
`dbgsession.attach` reports `AlreadyAttached` leaving the session intact,
and the `comon attach` command path returns `E_FAIL` without touching
state — while attaching with no Monitor active installs a fresh Monitor
built from the given filter and reports success. -/
theorem C5_attach (s : dbgsession) (m : monitor_state) (f : cofilter)
    (args : String) (rest : List String)
    (s2 : dbgsession) (args2 : String) (rest2 : List String)
    (hm : s.monitor = some m)
    (hsplit : split_args args = "attach" :: rest)
    (hs2 : s2.monitor = none)
    (hsplit2 : split_args args2 = "attach" :: rest2) :
    s.attach f = (s, HRes.engine ComonError.AlreadyAttached) ∧
    comon s args = (s, Except.ok HRes.e_fail) ∧
    s2.attach f = (⟨some (monitor_state.init f)⟩, HRes.s_ok) ∧
    comon s2 args2 =
      (⟨some (monitor_state.init (parse_filter rest2))⟩, Except.ok HRes.s_ok) := by
  refine ⟨?_, ?_, ?_, ?_⟩
  · simp [dbgsession.attach, hm]
  · simp [comon, hsplit, dbgsession.find_active_monitor, hm]
  · simp [dbgsession.attach, hs2]
  · simp [comon, hsplit2, dbgsession.find_active_monitor, hs2, dbgsession.attach]

/-- C5 witness: a second `attach` on the attached session `sessA` fails
with `AlreadyAttached` / `E_FAIL` and changes nothing, while `attach` on
the empty session installs the monitor with the parsed filter. -/
theorem C5_attach_witness :
    sessA.attach cofilter.no_filter =
      (sessA, HRes.engine ComonError.AlreadyAttached) ∧
    comon sessA "attach" = (sessA, Except.ok HRes.e_fail) ∧
    sessNone.attach cofilter.no_filter =
      (⟨some (monitor_state.init cofilter.no_filter)⟩, HRes.s_ok) ∧
    comon sessNone ("attach " ++ guid1s ++ " -e") =
      (⟨some (monitor_state.init (parse_filter [guid1s, "-e"]))⟩,
        Except.ok HRes.s_ok) :=
  C5_attach sessA (monitor_state.init cofilter.no_filter) cofilter.no_filter
    "attach" [] sessNone ("attach " ++ guid1s ++ " -e") [guid1s, "-e"]
    (by decide) (by decide) (by decide) (by decide)

/-- C6: `detach` is idempotent — after any `detach` the session is
not-attached, a second `detach` changes nothing, detaching a
never-attached session is a harmless no-op, and the unconditional
`detach` run at extension unload is safe even right after an explicit
`detach`. -/
theorem C6_detach_idempotent (s : dbgsession) :
    s.detach.monitor = none ∧
    s.detach.detach = s.detach ∧
    dbgsession.detach ⟨none⟩ = ⟨none⟩ ∧
    DebugExtensionUninitialize s = s.detach ∧
    DebugExtensionUninitialize s.detach = s.detach := by
  refine ⟨rfl, rfl, rfl, rfl, rfl⟩

/-- C7: with no VtableRecord matching `(clsid, iid)`, breakpoint creation
fails with `UnknownVtable` and allocates no Breakpoint record; and in
general every creation failure — including the debugger collaborator
refusing the real breakpoint — leaves the monitor unchanged. -/
theorem C7_create_failure (meta : cometa_store) (oracle : debugger_oracle)
    (m : monitor_state) (clsid iid : GUID) (sel : method_selector)
    (hnone : ∀ r ∈ m.vtables, ¬(r.clsid = clsid ∧ r.iid = iid)) :
    m.create_cobreakpoint meta oracle clsid iid sel =
      (m, HRes.engine ComonError.UnknownVtable) ∧
    (m.create_cobreakpoint meta oracle clsid iid sel).1.breakpoints =
      m.breakpoints ∧
    (∀ (m2 : monitor_state) (sel2 : method_selector) (c2 i2 : GUID),
      (m2.create_cobreakpoint meta oracle c2 i2 sel2).2 ≠ HRes.s_ok →
      (m2.create_cobreakpoint meta oracle c2 i2 sel2).1 = m2) ∧
    (∀ (m2 : monitor_state) (c2 i2 : GUID) (sel2 : method_selector)
        (r : VtableRecord) (idx : Nat),
      m2.vtables.find? (fun v => v.clsid == c2 && v.iid == i2) = some r →
      resolve_selector meta i2 sel2 = some idx →
      oracle.place_breakpoint (vtable_method_address r idx) = false →
      m2.create_cobreakpoint meta oracle c2 i2 sel2 =
        (m2, HRes.engine ComonError.UnderlyingBreakpointFailure)) := by
  have hfind : m.vtables.find? (fun v => v.clsid == clsid && v.iid == iid) = none := by
    rw [List.find?_eq_none]
    intro r hr
    have := hnone r hr
    simp only [Bool.and_eq_true, beq_iff_eq]
    tauto
  refine ⟨?_, ?_, ?_, ?_⟩
  · simp [monitor_state.create_cobreakpoint, hfind]
  · simp [monitor_state.create_cobreakpoint, hfind]
  · intro m2 sel2 c2 i2 hne
    cases hf2 : m2.vtables.find? (fun v => v.clsid == c2 && v.iid == i2) with
    | none => simp [monitor_state.create_cobreakpoint, hf2]
    | some r =>
      cases hres : resolve_selector meta i2 sel2 with
      | none => simp [monitor_state.create_cobreakpoint, hf2, hres]
      | some idx =>
        by_cases hp : oracle.place_breakpoint (vtable_method_address r idx) = true
        · exfalso
          apply hne
          simp [monitor_state.create_cobreakpoint, hf2, hres, hp]
        · simp [monitor_state.create_cobreakpoint, hf2, hres,
            Bool.not_eq_true _ ▸ hp]
  · intro m2 c2 i2 sel2 r idx hf2 hres hp
    simp [monitor_state.create_cobreakpoint, hf2, hres, hp]

/-- C7 witness: creation on a monitor with an empty registry fails with
`UnknownVtable`, and creation on `mV` under a refusing debugger oracle
fails with `UnderlyingBreakpointFailure` leaving `mV` unchanged. -/
theorem C7_create_failure_witness :
    (monitor_state.init cofilter.no_filter).create_cobreakpoint meta0 oracle0 7 8
        (method_selector.by_index 3) =
      (monitor_state.init cofilter.no_filter, HRes.engine ComonError.UnknownVtable) ∧
    mV.create_cobreakpoint meta0 oracleFail 1 2 (method_selector.by_index 2) =
      (mV, HRes.engine ComonError.UnderlyingBreakpointFailure) ∧
    (mV.create_cobreakpoint meta0 oracleFail 1 2 (method_selector.by_index 2)).1 =
      mV := by
  have h1 := C7_create_failure meta0 oracle0 (monitor_state.init cofilter.no_filter)
    7 8 (method_selector.by_index 3) (by decide)
  have h2 := C7_create_failure meta0 oracleFail mV 7 8
    (method_selector.by_index 3) (by decide)
  exact ⟨h1.1,
    h2.2.2.2 mV 1 2 (method_selector.by_index 2) rV 2 (by decide) (by decide) (by decide),
    h2.2.2.1 mV (method_selector.by_index 2) 1 2 (by decide)⟩

/-- C9 counterexample: with no monitor attached, `cobp` on an empty
argument string returns `E_INVALIDARG` from its argument-count check, not
the claimed `E_FAIL` monitor-not-enabled failure. -/
theorem C9_counterexample :
    cobp meta0 oracle0 sessNone "" = (sessNone, Except.ok HRes.e_invalidarg) ∧
    HRes.e_invalidarg ≠ HRes.e_fail := by
  refine ⟨by decide, by decide⟩

/-- C9 (amended): with no Monitor attached, `cobl` and `cobd` return
`E_FAIL` (monitor not enabled) for every argument string; `cobp` and
`coreg` return `E_FAIL` for every argument string that survives their
argument validation (at least three tokens, the first two parseable
GUIDs), and a validation failure (`E_INVALIDARG` or the GUID-parse
HRESULT) otherwise; in every case the session state is unchanged. -/
theorem C9_amended (meta : cometa_store) (oracle : debugger_oracle)
    (s : dbgsession) (args args2 : String) (clsid iid : GUID)
    (hs : s.monitor = none)
    (h3 : 3 ≤ (split_args args).length)
    (hc : try_parse_guid ((split_args args).getD 0 "") = some clsid)
    (hi : try_parse_guid ((split_args args).getD 1 "") = some iid) :
    cobl s args2 = (s, Except.ok HRes.e_fail) ∧
    cobd s args2 = (s, Except.ok HRes.e_fail) ∧
    cobp meta oracle s args = (s, Except.ok HRes.e_fail) ∧
    coreg oracle s args = (s, Except.ok HRes.e_fail) ∧
    (cobp meta oracle s args2).1 = s ∧
    (coreg oracle s args2).1 = s := by
  have h3' : ¬ ((split_args args).length < 3) := by omega
  simp only [List.getD_eq_getElem?_getD] at hc hi
  refine ⟨?_, ?_, ?_, ?_, ?_, ?_⟩
  · simp [cobl, dbgsession.find_active_monitor, hs]
  · simp [cobd, dbgsession.find_active_monitor, hs]
  · simp [cobp, h3', hc, hi, dbgsession.find_active_monitor, hs]
  · simp [coreg, h3', hc, hi, dbgsession.find_active_monitor, hs]
  · simp only [cobp, dbgsession.find_active_monitor, hs]
    split
    · rfl
    · split
      · rfl
      · split
        · rfl
        · rfl
  · simp only [coreg, dbgsession.find_active_monitor, hs]
    split
    · rfl
    · split
      · rfl
      · split
        · rfl
        · rfl

/-- C9 witness: the amended behavior on the empty session, with the valid
three-token argument string `argsRegBad` and the arbitrary string "". -/
theorem C9_amended_witness :
    cobl sessNone "" = (sessNone, Except.ok HRes.e_fail) ∧
    cobd sessNone "" = (sessNone, Except.ok HRes.e_fail) ∧
    cobp meta0 oracle0 sessNone argsRegBad = (sessNone, Except.ok HRes.e_fail) ∧
    coreg oracle0 sessNone argsRegBad = (sessNone, Except.ok HRes.e_fail) ∧
    (cobp meta0 oracle0 sessNone "").1 = sessNone ∧
    (coreg oracle0 sessNone "").1 = sessNone :=
  C9_amended meta0 oracle0 sessNone argsRegBad "" 1 2
    (by decide) (by decide) (by decide) (by decide)

/-- C10: every vtable registration issued through `coreg` passes
`is_64bit = false` — the handler forwards the parsed address with the
bitness hard-coded to false, so any record it adds is 32-bit, and a
breakpoint address later derived from a 32-bit record uses a 4-byte
pointer width. -/
theorem C10_coreg_32bit (oracle : debugger_oracle) (s : dbgsession)
    (m : monitor_state) (args : String) (clsid iid : GUID) (addr : Nat)
    (hm : s.monitor = some m)
    (h3 : 3 ≤ (split_args args).length)
    (hc : try_parse_guid ((split_args args).getD 0 "") = some clsid)
    (hi : try_parse_guid ((split_args args).getD 1 "") = some iid)
    (ha : stoull ((split_args args).getD 2 "") = Except.ok addr) :
    coreg oracle s args =
      (⟨some (m.register_vtable oracle clsid iid addr false).1⟩,
        Except.ok (m.register_vtable oracle clsid iid addr false).2) ∧
    (∀ r ∈ (m.register_vtable oracle clsid iid addr false).1.vtables,
      r ∈ m.vtables ∨ r.is_64bit = false) ∧
    (∀ (r : VtableRecord) (idx : Nat), r.is_64bit = false →
      vtable_method_address r idx = r.address + idx * 4) := by
  have h3' : ¬ ((split_args args).length < 3) := by omega
  simp only [List.getD_eq_getElem?_getD] at hc hi ha
  refine ⟨?_, ?_, ?_⟩
  · simp [coreg, h3', hc, hi, dbgsession.find_active_monitor, hm, ha]
  · intro r hr
    by_cases hp : m.paused
    · simp only [monitor_state.register_vtable, if_pos hp] at hr
      exact Or.inl hr
    · by_cases hflt : m.filter.decide clsid = false
      · simp only [monitor_state.register_vtable, if_neg hp, if_pos hflt] at hr
        exact Or.inl hr
      · by_cases hdup : (m.vtables.any
            (fun v => v.clsid == clsid && v.iid == iid && v.address == addr)) = true
        · simp only [monitor_state.register_vtable, if_neg hp, if_neg hflt,
            if_pos hdup] at hr
          exact Or.inl hr
        · simp only [monitor_state.register_vtable, if_neg hp, if_neg hflt,
            if_neg hdup, List.mem_append, List.mem_singleton] at hr
          cases hr with
          | inl h => exact Or.inl h
          | inr h => exact Or.inr (by rw [h])
  · intro r idx h64
    simp [vtable_method_address, h64]

/-- C10 witness: registering through `coreg` on the freshly attached
session adds a single record marked 32-bit. -/
theorem C10_coreg_32bit_witness :
    coreg oracle0 sessA argsReg4096 =
      (⟨some ((monitor_state.init cofilter.no_filter).register_vtable
          oracle0 1 2 4096 false).1⟩,
        Except.ok ((monitor_state.init cofilter.no_filter).register_vtable
          oracle0 1 2 4096 false).2) ∧
    (rV.is_64bit = false → vtable_method_address rV 3 = rV.address + 3 * 4) := by
  have h := C10_coreg_32bit oracle0 sessA (monitor_state.init cofilter.no_filter)
    argsReg4096 1 2 4096 (by decide) (by decide) (by decide) (by decide) (by decide)
  exact ⟨h.1, fun h64 => h.2.2 rV 3 h64⟩

/-- C3 counterexample: with a monitor attached and metadata present, the
selector "4294967296" (a numeral above the 32-bit `unsigned long` range)
is neither used as a slot index nor treated as a method name — `std::stoul`
raises `std::out_of_range`, which `cobp` does not catch, so the handler
produces no HRESULT at all, contradicting the claimed numeric-or-name
dichotomy. -/
theorem C3_counterexample :
    (cobp meta0 oracle0 sessV argsBpOOR).2 = Except.error CppExc.out_of_range ∧
    cobp meta0 oracle0 sessV argsBpOOR ≠
      (⟨some (mV.create_cobreakpoint meta0 oracle0 1 2
          (method_selector.by_name "4294967296")).1⟩,
        Except.ok (mV.create_cobreakpoint meta0 oracle0 1 2
          (method_selector.by_name "4294967296")).2) ∧
    cobp meta0 oracle0 sessV argsBpOOR ≠
      (⟨some (mV.create_cobreakpoint meta0 oracle0 1 2
          (method_selector.by_index 4294967296)).1⟩,
        Except.ok (mV.create_cobreakpoint meta0 oracle0 1 2
          (method_selector.by_index 4294967296)).2) := by
  refine ⟨by decide, by decide, by decide⟩

/-- C3 (amended): a selector accepted by `std::stoul` (a base-10 numeral
prefix whose value fits 32 bits) is used directly as the vtable slot
index; a selector `std::stoul` rejects with `std::invalid_argument` (no
numeric prefix) is treated as a method name resolved against the
interface's ordered method list from the metadata resolver, failing with
`MethodNotFound` when absent or when no metadata exists; a numeral beyond
the 32-bit range raises an uncaught `std::out_of_range` (neither
behavior, see the counterexample).  For a name `nm` listed at index `k`,
creation by name computes exactly what creation by index `k` computes:
the breakpoint at vtable base + k × pointer width. -/
theorem C3_amended (meta : cometa_store) (oracle : debugger_oracle)
    (s : dbgsession) (m : monitor_state) (args : String) (clsid iid : GUID)
    (methods : List String) (nm : String) (k : Nat) (r : VtableRecord)
    (hm : s.monitor = some m)
    (h3 : 3 ≤ (split_args args).length)
    (hc : try_parse_guid ((split_args args).getD 0 "") = some clsid)
    (hi : try_parse_guid ((split_args args).getD 1 "") = some iid)
    (hmeta : meta.get_type_methods iid = some methods)
    (hk : methods.findIdx? (fun x => x == nm) = some k)
    (hr : m.vtables.find? (fun v => v.clsid == clsid && v.iid == iid) = some r) :
    (∀ n, stoul ((split_args args).getD 2 "") = Except.ok n →
      cobp meta oracle s args =
        (⟨some (m.create_cobreakpoint meta oracle clsid iid
            (method_selector.by_index n)).1⟩,
          Except.ok (m.create_cobreakpoint meta oracle clsid iid
            (method_selector.by_index n)).2)) ∧
    (stoul ((split_args args).getD 2 "") = Except.error CppExc.invalid_argument →
      cobp meta oracle s args =
        (⟨some (m.create_cobreakpoint meta oracle clsid iid
            (method_selector.by_name ((split_args args).getD 2 ""))).1⟩,
          Except.ok (m.create_cobreakpoint meta oracle clsid iid
            (method_selector.by_name ((split_args args).getD 2 ""))).2)) ∧
    (∀ nm2, resolve_selector meta iid (method_selector.by_name nm2) = none →
      m.create_cobreakpoint meta oracle clsid iid (method_selector.by_name nm2) =
        (m, HRes.engine ComonError.MethodNotFound)) ∧
    m.create_cobreakpoint meta oracle clsid iid (method_selector.by_name nm) =
      m.create_cobreakpoint meta oracle clsid iid (method_selector.by_index k) ∧
    (oracle.place_breakpoint (vtable_method_address r k) = true →
      (m.create_cobreakpoint meta oracle clsid iid
          (method_selector.by_index k)).1.breakpoints =
        m.breakpoints ++
          [⟨m.next_bp_id,
            toString clsid ++ ":" ++ toString iid ++ ":" ++ toString k,
            vtable_method_address r k⟩]) ∧
    vtable_method_address r k =
      r.address + k * (if r.is_64bit then 8 else 4) := by
  have h3' : ¬ ((split_args args).length < 3) := by omega
  simp only [List.getD_eq_getElem?_getD] at hc hi
  refine ⟨?_, ?_, ?_, ?_, ?_, rfl⟩
  · intro n hn
    simp only [List.getD_eq_getElem?_getD] at hn
    simp [cobp, h3', hc, hi, dbgsession.find_active_monitor, hm, hn]
  · intro hinv
    simp only [List.getD_eq_getElem?_getD] at hinv
    simp [cobp, h3', hc, hi, dbgsession.find_active_monitor, hm, hinv]
  · intro nm2 hres
    simp [monitor_state.create_cobreakpoint, hr, hres]
  · simp [monitor_state.create_cobreakpoint, hr, resolve_selector, hmeta, hk]
  · intro hp
    simp only [monitor_state.create_cobreakpoint, hr, resolve_selector, hp, if_true]

/-- C3 witness: on the concrete monitor `mV` (metadata lists "Release" at
index 2), the numeric selector "2" and the name selector "Release"
dispatch through `cobp` to the index and name overloads, resolve to the
same breakpoint, "Frobnicate" fails with `MethodNotFound`, and the
created breakpoint sits at 4096 + 2 × 4. -/
theorem C3_amended_witness :
    cobp meta0 oracle0 sessV argsBp2 =
      (⟨some (mV.create_cobreakpoint meta0 oracle0 1 2
          (method_selector.by_index 2)).1⟩,
        Except.ok (mV.create_cobreakpoint meta0 oracle0 1 2
          (method_selector.by_index 2)).2) ∧
    cobp meta0 oracle0 sessV argsBpRel =
      (⟨some (mV.create_cobreakpoint meta0 oracle0 1 2
          (method_selector.by_name "Release")).1⟩,
        Except.ok (mV.create_cobreakpoint meta0 oracle0 1 2
          (method_selector.by_name "Release")).2) ∧
    mV.create_cobreakpoint meta0 oracle0 1 2
        (method_selector.by_name "Frobnicate") =
      (mV, HRes.engine ComonError.MethodNotFound) ∧
    mV.create_cobreakpoint meta0 oracle0 1 2 (method_selector.by_name "Release") =
      mV.create_cobreakpoint meta0 oracle0 1 2 (method_selector.by_index 2) ∧
    (mV.create_cobreakpoint meta0 oracle0 1 2
        (method_selector.by_index 2)).1.breakpoints =
      mV.breakpoints ++
        [⟨mV.next_bp_id,
          toString (1 : GUID) ++ ":" ++ toString (2 : GUID) ++ ":" ++ toString 2,
          vtable_method_address rV 2⟩] ∧
    vtable_method_address rV 2 =
      rV.address + 2 * (if rV.is_64bit then 8 else 4) := by
  have h1 := C3_amended meta0 oracle0 sessV mV argsBp2 1 2
    ["QueryInterface", "AddRef", "Release"] "Release" 2 rV
    (by decide) (by decide) (by decide) (by decide) (by decide) (by decide) (by decide)
  have h2 := C3_amended meta0 oracle0 sessV mV argsBpRel 1 2
    ["QueryInterface", "AddRef", "Release"] "Release" 2 rV
    (by decide) (by decide) (by decide) (by decide) (by decide) (by decide) (by decide)
  exact ⟨h1.1 2 (by decide), h2.2.1 (by decide),
    h1.2.2.1 "Frobnicate" (by decide), h1.2.2.2.1,
    h1.2.2.2.2.1 (by decide), h1.2.2.2.2.2⟩

end Comon
